import Mathlib

/-!
Verification of the cvpysdk request-construction / response-normalization core.

Shallow embedding of:
  * src/cvpysdk/deployment/install.py            (Install.push_servicepack_and_hotfix,
                                                  Install.install_software)
  * src/cvpysdk/subclients/virtualserver/livesync/vsa_live_sync.py
                                                 (VsaLiveSync, LiveSyncPair)
  * src/cvpysdk/instances/mysqlinstance.py       (MYSQLInstance accessors and
                                                  restore-option builders)
  * src/cvpysdk/instances/virtualserver/openstackinstance.py (property accessors)

Python dictionaries / parsed JSON bodies are modelled by the `Json` type below;
Python exceptions are modelled by the `SDKErr` type (SDKException plus the
builtin Python errors the code can raise); fallible code returns `Except`.
-/

/-- Parsed JSON value / Python object, as handled by the SDK code.
`obj` keeps the field list in insertion order, like a Python dict. -/
inductive Json where
  | null
  | bool (b : Bool)
  | num (n : Int)
  | str (s : String)
  | arr (elems : List Json)
  | obj (fields : List (String × Json))
deriving Repr, Inhabited

/-- Errors raised by the embedded code: `SDKException(section, code)` values are
the first four constructors; the rest are builtin Python exceptions. -/
inductive SDKErr where
  | install (code : Nat)          -- SDKException('Install', code)
  | response (code : Nat)         -- SDKException('Response', code)
  | liveSync (code : Nat)         -- SDKException('LiveSync', code)
  | instanceErr (code : Nat)      -- SDKException('Instance', code)
  | keyError (key : String)       -- Python KeyError
  | indexError                    -- Python IndexError
  | typeError                     -- Python TypeError
  | attributeError                -- Python AttributeError
  | valueError                    -- Python ValueError
deriving Repr, DecidableEq

/-- Python truthiness of a parsed JSON value (`if response.json():`). -/
def Json.pyTruthy : Json → Bool
  | .null => false
  | .bool b => b
  | .num n => n != 0
  | .str s => !s.isEmpty
  | .arr elems => !elems.isEmpty
  | .obj fields => !fields.isEmpty

/-- Key lookup on a JSON object; `none` when the value is not an object or the
key is absent. -/
def Json.lookup : Json → String → Option Json
  | .obj fields, k => List.lookup k fields
  | _, _ => none

/-- Python `k in d` on a parsed JSON dict. -/
def Json.hasKey (j : Json) (k : String) : Bool :=
  (j.lookup k).isSome

/-- Python `d[k]` on a parsed JSON value: `KeyError` when the key is absent,
`TypeError` when the value is not a dict. -/
def Json.pyGetItem : Json → String → Except SDKErr Json
  | .obj fields, k =>
    match List.lookup k fields with
    | some v => .ok v
    | none => .error (.keyError k)
  | _, _ => .error .typeError

/-- Python `xs[i]` on a parsed JSON value: `IndexError` past the end,
`TypeError` when the value is not a list. -/
def Json.pyIndex : Json → Nat → Except SDKErr Json
  | .arr elems, i =>
    match elems.get? i with
    | some v => .ok v
    | none => .error .indexError
  | _, _ => .error .typeError

/-- Python `d.get(k, default)` on a parsed JSON value: `AttributeError` when
the value is not a dict (no `.get` method). -/
def Json.pyGet (j : Json) (k : String) (dflt : Json) : Except SDKErr Json :=
  match j with
  | .obj fields => .ok ((List.lookup k fields).getD dflt)
  | _ => .error .attributeError

/-- `d.get(k, default)` on a dict already known to be one (field list given). -/
def dictGet (fields : List (String × Json)) (k : String) (dflt : Json) : Json :=
  (List.lookup k fields).getD dflt

/-- Python `d[k] = v` on a dict's field list: updates the value in place if the
key is present, appends otherwise (dict insertion-order semantics). -/
def setField : List (String × Json) → String → Json → List (String × Json)
  | [], k, v => [(k, v)]
  | (k', v') :: rest, k, v =>
    if k' == k then (k', v) :: rest else (k', v') :: setField rest k v

/-- Python `d[k] = v` on a JSON object (all call sites pass a dict). -/
def Json.dictSet : Json → String → Json → Json
  | .obj fields, k, v => .obj (setField fields k v)
  | j, _, _ => j

/-- Python truthiness of an optional list parameter (`None` and `[]` falsy). -/
def optTruthy : Option (List α) → Bool
  | none => false
  | some l => !l.isEmpty

/-- Python `s.lower()` (the names this code lowercases are ASCII). -/
def pyLower (s : String) : String := ⟨s.data.map Char.toLower⟩

/-- Python `str(x)` for the values str() is applied to in this code
(replicationId is a number or string). -/
def pyStr : Json → String
  | .num n => toString n
  | .str s => s
  | .bool b => cond b "True" "False"
  | .null => "None"
  | _ => ""

/-! ## deployment/install.py -/

/-- The session's known-valid reference sets: the keys of
`commcell_object.clients.all_clients` and
`commcell_object.client_groups.all_clientgroups` (both dicts keyed by
lowercase name). -/
structure CommcellEnv where
  all_clients : List String
  all_clientgroups : List String
deriving Repr, DecidableEq

/-- One entry of the `clientAndClientGroups` selector sequence built by
`push_servicepack_and_hotfix` (install.py lines 113, 120-121, 124, 127):
either an explicit name object or an "all" sentinel object keyed `_type_`. -/
inductive Selector where
  | clientName (name : String)          -- from an explicit client list
  | clientGroupName (name : String)     -- from an explicit client-group list
  | allType (code : Nat)                -- sentinel: 2 = all clients, 27 = all groups
deriving Repr, DecidableEq

/-- Serialization of a selector into the request JSON. -/
def Selector.toJson : Selector → Json
  | .clientName n => .obj [("clientName", .str n)]
  | .clientGroupName n => .obj [("clientGroupName", .str n)]
  | .allType c => .obj [("_type_", .num c)]

/-- install.py lines 108-113: lowercase the explicit client list, check it is a
subset of the session's known clients (else `SDKException('Install','102')`),
and turn it into selector objects; `[]` when the parameter is `None`. -/
def clientsStep (env : CommcellEnv) : Option (List String) → Except SDKErr (List Selector)
  | none => .ok []
  | some cs =>
    let low := cs.map pyLower
    if low.all (fun c => env.all_clients.contains c) then
      .ok (low.map Selector.clientName)
    else
      .error (.install 102)

/-- install.py lines 115-121: same for the explicit client-group list
(else `SDKException('Install','103')`). -/
def groupsStep (env : CommcellEnv) : Option (List String) → Except SDKErr (List Selector)
  | none => .ok []
  | some gs =>
    let low := gs.map pyLower
    if low.all (fun g => env.all_clientgroups.contains g) then
      .ok (low.map Selector.clientGroupName)
    else
      .error (.install 103)

/-- install.py lines 96-129: the selector sequence `all_clients` that
`push_servicepack_and_hotfix` embeds into the request.  Mirrors the source
order: zero-selector check (`SDKException('Install','101')`), explicit client
list, explicit group list, then the two "all" sentinels, which *overwrite*
(`selected_clients = [{"_type_": 2}]`) the corresponding explicit list. -/
def push_selectors (env : CommcellEnv)
    (client_computers client_computer_groups : Option (List String))
    (all_client_computers all_client_computer_groups : Bool) :
    Except SDKErr (List Selector) :=
  if (all_client_computers || all_client_computer_groups
      || optTruthy client_computers || optTruthy client_computer_groups) = false then
    .error (.install 101)
  else
    match clientsStep env client_computers with
    | .error e => .error e
    | .ok selected_clients =>
      match groupsStep env client_computer_groups with
      | .error e => .error e
      | .ok selected_client_groups =>
        .ok ((if all_client_computers then [Selector.allType 2] else selected_clients)
          ++ (if all_client_computer_groups then [Selector.allType 27]
              else selected_client_groups))

/-- install.py lines 131-171: the full request body posted to `CREATE_TASK` by
`push_servicepack_and_hotfix`. -/
def push_request_json (reboot_client run_db_maintenance : Bool)
    (all_clients : List Selector) : Json :=
  .obj [("taskInfo", .obj [
    ("task", .obj [
      ("taskType", .num 1),
      ("initiatedFrom", .num 2),
      ("policyType", .num 0),
      ("alert", .obj [("alertName", .str "")]),
      ("taskFlags", .obj [("isEdgeDrive", .bool false), ("disabled", .bool false)])]),
    ("subTasks", .arr [.obj [
      ("subTaskOperation", .num 1),
      ("subTask", .obj [("subTaskType", .num 1), ("operationType", .num 4020)]),
      ("options", .obj [("adminOpts", .obj [("updateOption", .obj [
        ("removeIntersectingDiag", .bool true),
        ("restartExplorerPlugin", .bool true),
        ("rebootClient", .bool reboot_client),
        ("runDBMaintenance", .bool run_db_maintenance),
        ("clientAndClientGroups", .arr (all_clients.map Selector.toJson)),
        ("installUpdatesJobType", .obj [
          ("upgradeClients", .bool false),
          ("undoUpdates", .bool false),
          ("installUpdates", .bool true)])])])])]])])]

/-- install.py lines 176-187 (and the identical lines 377-388): the uniform
handling of a `CREATE_TASK` response.  On success the returned `Job` handle
wraps `response.json()['jobIds'][0]`; a truthy body without `jobIds` is
`SDKException('Install','107')`; a falsy body is `SDKException('Response','102')`;
a transport failure is `SDKException('Response','101')`. -/
def process_task_response (flag : Bool) (body : Json) : Except SDKErr Json :=
  if flag then
    if body.pyTruthy then
      if body.hasKey "jobIds" then
        match body.pyGetItem "jobIds" with
        | .ok ids => ids.pyIndex 0
        | .error e => .error e
      else
        .error (.install 107)
    else
      .error (.response 102)
  else
    .error (.response 101)

/-- Outcome of one operation: either it raised before `make_request` was
reached, or a request with the given payload was sent and the transport's
`(flag, body)` answer was processed into `result`. -/
inductive CallOutcome (ρ : Type) where
  | failedBeforeRequest (e : SDKErr)
  | sent (request : ρ) (result : Except SDKErr Json)

/-- install.py lines 45-187: `Install.push_servicepack_and_hotfix`, with the
transport's answer `(flag, body)` supplied as a parameter.  Everything before
`make_request` (line 172) is `push_selectors` plus the static request body; an
error there means no network call happens. -/
def push_servicepack_and_hotfix (env : CommcellEnv)
    (client_computers client_computer_groups : Option (List String))
    (all_client_computers all_client_computer_groups : Bool)
    (reboot_client run_db_maintenance : Bool)
    (flag : Bool) (body : Json) : CallOutcome Json :=
  match push_selectors env client_computers client_computer_groups
      all_client_computers all_client_computer_groups with
  | .error e => .failedBeforeRequest e
  | .ok all_clients =>
    .sent (push_request_json reboot_client run_db_maintenance all_clients)
      (process_task_response flag body)

/-- One entry of `componentInfo` in `install_software`:
`{'osType': ..., 'ComponentId': feature_id}` (install.py lines 255, 260). -/
structure InstallComponent where
  osType : String
  componentId : Nat
deriving Repr, DecidableEq

/-- The caller-dependent parts of the `install_software` request body
(install.py lines 282-372); the remaining fields of the posted JSON are
constants. -/
structure InstallRequest where
  installOSType : Nat
  componentInfo : List InstallComponent
  clientDetails : List (String × String)   -- (clientName, commCellName) pairs
  userName : Option String
  password : Option String
deriving Repr, DecidableEq

/-- install.py lines 189-388: `Install.install_software`.  Note line 261: the
`elif unix_features:` branch builds `install_options` by iterating
`windows_features` — `TypeError` when that is `None`, an empty component list
when it is `[]`.  `commserv_name` is `commcell_object.commserv_name`. -/
def install_software (commserv_name : String)
    (client_computers : Option (List String))
    (windows_features unix_features : Option (List Nat))
    (username password : Option String)
    (flag : Bool) (body : Json) : CallOutcome InstallRequest :=
  let step : Except SDKErr (Nat × List InstallComponent) :=
    if optTruthy windows_features then
      .ok (0, (windows_features.getD []).map (fun f => ⟨"Windows", f⟩))
    else if optTruthy unix_features then
      -- source iterates windows_features here, not unix_features
      match windows_features with
      | none => .error .typeError
      | some ws => .ok (1, ws.map (fun f => ⟨"Unix", f⟩))
    else
      .error (.install 105)
  match step with
  | .error e => .failedBeforeRequest e
  | .ok (os_type, install_options) =>
    if optTruthy client_computers then
      .sent
        { installOSType := os_type
          componentInfo := install_options
          clientDetails := (client_computers.getD []).map (fun c => (c, commserv_name))
          userName := username
          password := password }
        (process_task_response flag body)
    else
      .failedBeforeRequest (.install 106)

/-! ## subclients/virtualserver/livesync/vsa_live_sync.py -/

/-- vsa_live_sync.py lines 180-185: one iteration of the `siteInfo` loop of
`_get_live_sync_pairs`:
`temp_name = dictionary['subTask']['subtaskName'].lower()` and
`temp_id = str(dictionary['replicationId'])`. -/
def pairEntry (d : Json) : Except SDKErr (String × String) :=
  match d.pyGetItem "subTask" with
  | .error e => .error e
  | .ok st =>
    match st.pyGetItem "subtaskName" with
    | .error e => .error e
    | .ok sn =>
      match sn with
      | .str s =>
        match d.pyGetItem "replicationId" with
        | .error e => .error e
        | .ok rid => .ok (pyLower s, pyStr rid)
      | _ => .error .attributeError   -- .lower() on a non-string

/-- Python `d[k] = v` for the name → id snapshot dict. -/
def setPair : List (String × String) → String → String → List (String × String)
  | [], k, v => [(k, v)]
  | (k', v') :: rest, k, v =>
    if k' == k then (k', v) :: rest else (k', v') :: setPair rest k v

/-- The `live_sync_pairs_dict` accumulation: `dict[temp_name] = {'id': temp_id}`
over the `siteInfo` entries.  An entry's value dict always has the single key
`'id'`, so the snapshot is kept as name → id. -/
def pairsFold : List Json → List (String × String) → Except SDKErr (List (String × String))
  | [], acc => .ok acc
  | d :: rest, acc =>
    match pairEntry d with
    | .error e => .error e
    | .ok (n, i) => pairsFold rest (setPair acc n i)

/-- vsa_live_sync.py lines 151-191: `VsaLiveSync._get_live_sync_pairs`, with the
transport's answer `(flag, body)` supplied as a parameter.  A falsy body
returns the empty dict; a truthy body without `siteInfo` is
`SDKException('Response','102')`; transport failure is
`SDKException('Response','101')`. -/
def get_live_sync_pairs (flag : Bool) (body : Json) : Except SDKErr (List (String × String)) :=
  if flag then
    if !body.pyTruthy then
      .ok []
    else if body.hasKey "siteInfo" then
      match body.pyGetItem "siteInfo" with
      | .error e => .error e
      | .ok site =>
        match site with
        | .arr entries => pairsFold entries []
        | _ => .error .typeError   -- `for dictionary in ...` over a non-list
    else
      .error (.response 102)
  else
    .error (.response 101)

/-- vsa_live_sync.py lines 337-339: `VsaLiveSync.refresh` assigns
`self._live_sync_pairs = self._get_live_sync_pairs()`; when the fetch raises,
the assignment does not happen and the old snapshot survives.  Returns the
resulting snapshot and the raised error, if any. -/
def VsaLiveSync.refresh (old : List (String × String)) (flag : Bool) (body : Json) :
    List (String × String) × Option SDKErr :=
  match get_live_sync_pairs flag body with
  | .ok d => (d, none)
  | .error e => (old, some e)

/-- vsa_live_sync.py lines 321-335: `VsaLiveSync.has_live_sync_pair`:
`self.live_sync_pairs and live_sync_name.lower() in self.live_sync_pairs`. -/
def has_live_sync_pair (pairs : List (String × String)) (live_sync_name : String) : Bool :=
  !pairs.isEmpty && (List.lookup (pyLower live_sync_name) pairs).isSome

/-- vsa_live_sync.py lines 296-319: `VsaLiveSync.get`.  The guard is the
case-insensitive `has_live_sync_pair`, but the dict index on line 316
(`self.live_sync_pairs[live_sync_name]['id']`) uses the *raw* name, so it can
raise `KeyError`.  The returned handle is the (name, id) pair the
`LiveSyncPair` constructor is called with — the constructor lowercases the
name (line 360); its own network refresh is outside this function. -/
def VsaLiveSync.get (pairs : List (String × String)) (live_sync_name : String) :
    Except SDKErr (String × String) :=
  if has_live_sync_pair pairs live_sync_name then
    match List.lookup live_sync_name pairs with
    | some i => .ok (pyLower live_sync_name, i)
    | none => .error (.keyError live_sync_name)
  else
    .error (.liveSync 102)

/-- The mutable per-pair attributes of `LiveSyncPair` (vsa_live_sync.py lines
374-378), each `None` until first populated. -/
structure PairState where
  properties : Option Json
  replication_guid : Option Json
  status : Option Json
  source_vm : Option Json
  destination_vm : Option Json
deriving Repr

/-- vsa_live_sync.py lines 396-420: `LiveSyncPair._get_live_sync_properties`,
with the transport's answer `(flag, body)` supplied as a parameter.  The
attributes are assigned one by one (lines 412-416), so an error partway
through the extraction leaves the earlier assignments in place.  Returns the
resulting state and the raised error, if any; a falsy body is `pass`. -/
def get_live_sync_properties (st : PairState) (flag : Bool) (body : Json) :
    PairState × Option SDKErr :=
  if flag then
    if !body.pyTruthy then
      (st, none)
    else if body.hasKey "siteInfo" then
      match body.pyGetItem "siteInfo" with
      | .error e => (st, some e)
      | .ok site =>
        match site.pyIndex 0 with
        | .error e => (st, some e)
        | .ok props =>
          let st := { st with properties := some props }
          match props.pyGetItem "replicationGuid" with
          | .error e => (st, some e)
          | .ok g =>
            let st := { st with replication_guid := some g }
            match props.pyGetItem "status" with
            | .error e => (st, some e)
            | .ok s =>
              let st := { st with status := some s }
              match props.pyGetItem "sourceName" with
              | .error e => (st, some e)
              | .ok src =>
                let st := { st with source_vm := some src }
                match props.pyGetItem "destinationName" with
                | .error e => (st, some e)
                | .ok dst => ({ st with destination_vm := some dst }, none)
    else
      (st, some (.response 102))
  else
    (st, some (.response 101))

/-! ## instances/mysqlinstance.py

The accessors take the `_properties` snapshot's field list (the snapshot is
the parsed dict the base class stored).  The first-level
`self._properties.get('mySqlInstance', {})` therefore never raises; deeper
`.get` calls go through `Json.pyGet` and raise `AttributeError` if the stored
value is not a dict, exactly like Python. -/

namespace MYSQLInstance

/-- `self._properties.get('mySqlInstance', {})` (used by every accessor). -/
def mySqlInstanceDict (props : List (String × Json)) : Json :=
  dictGet props "mySqlInstance" (.obj [])

/-- mysqlinstance.py lines 104-107: `MYSQLInstance.port`. -/
def port (props : List (String × Json)) : Except SDKErr Json :=
  (mySqlInstanceDict props).pyGet "port" .null

/-- mysqlinstance.py lines 109-112: `MYSQLInstance.mysql_username`. -/
def mysql_username (props : List (String × Json)) : Except SDKErr Json :=
  match (mySqlInstanceDict props).pyGet "SAUser" (.obj []) with
  | .error e => .error e
  | .ok sa => sa.pyGet "userName" .null

/-- mysqlinstance.py lines 114-117: `MYSQLInstance.nt_username`. -/
def nt_username (props : List (String × Json)) : Except SDKErr Json :=
  match (mySqlInstanceDict props).pyGet "NTUser" (.obj []) with
  | .error e => .error e
  | .ok nt => nt.pyGet "userName" .null

/-- mysqlinstance.py lines 119-122: `MYSQLInstance.config_file`. -/
def config_file (props : List (String × Json)) : Except SDKErr Json :=
  (mySqlInstanceDict props).pyGet "ConfigFile" .null

/-- mysqlinstance.py lines 124-127: `MYSQLInstance.binary_directory`. -/
def binary_directory (props : List (String × Json)) : Except SDKErr Json :=
  (mySqlInstanceDict props).pyGet "BinaryDirectory" .null

/-- mysqlinstance.py lines 129-132: `MYSQLInstance.version`. -/
def version (props : List (String × Json)) : Except SDKErr Json :=
  (mySqlInstanceDict props).pyGet "version" .null

/-- mysqlinstance.py lines 134-137: `MYSQLInstance.log_data_directory`. -/
def log_data_directory (props : List (String × Json)) : Except SDKErr Json :=
  (mySqlInstanceDict props).pyGet "LogDataDirectory" .null

/-- mysqlinstance.py lines 139-149: `MYSQLInstance.log_backup_sp_details`. -/
def log_backup_sp_details (props : List (String × Json)) : Except SDKErr Json :=
  match (mySqlInstanceDict props).pyGet "logStoragePolicy" (.obj []) with
  | .error e => .error e
  | .ok sp =>
    match sp.pyGet "storagePolicyName" .null with
    | .error e => .error e
    | .ok n =>
      match sp.pyGet "storagePolicyId" .null with
      | .error e => .error e
      | .ok i => .ok (.obj [("storagePolicyName", n), ("storagePolicyId", i)])

/-- mysqlinstance.py lines 151-163: `MYSQLInstance.command_line_sp_details`. -/
def command_line_sp_details (props : List (String × Json)) : Except SDKErr Json :=
  match (mySqlInstanceDict props).pyGet "mysqlStorageDevice" (.obj []) with
  | .error e => .error e
  | .ok dev =>
    match dev.pyGet "commandLineStoragePolicy" (.obj []) with
    | .error e => .error e
    | .ok sp =>
      match sp.pyGet "storagePolicyName" .null with
      | .error e => .error e
      | .ok n =>
        match sp.pyGet "storagePolicyId" .null with
        | .error e => .error e
        | .ok i => .ok (.obj [("storagePolicyName", n), ("storagePolicyId", i)])

/-- mysqlinstance.py lines 165-168: `MYSQLInstance.autodiscovery_enabled`. -/
def autodiscovery_enabled (props : List (String × Json)) : Except SDKErr Json :=
  (mySqlInstanceDict props).pyGet "EnableAutoDiscovery" (.bool false)

/-- mysqlinstance.py lines 170-186: `MYSQLInstance.proxy_options`. -/
def proxy_options (props : List (String × Json)) : Except SDKErr Json :=
  match (mySqlInstanceDict props).pyGet "proxySettings" (.obj []) with
  | .error e => .error e
  | .ok px =>
    match px.pyGet "isUseSSL" .null with
    | .error e => .error e
    | .ok ssl =>
      match px.pyGet "isProxyEnabled" .null with
      | .error e => .error e
      | .ok en =>
        match px.pyGet "runBackupOnProxy" .null with
        | .error e => .error e
        | .ok rb =>
          match px.pyGet "proxyInstance" (.obj []) with
          | .error e => .error e
          | .ok pin =>
            match pin.pyGet "instanceId" .null with
            | .error e => .error e
            | .ok pid =>
              .ok (.obj [("isUseSSL", ssl), ("isProxyEnabled", en),
                ("runBackupOnProxy", rb), ("instanceId", pid)])

end MYSQLInstance

/-- openstackinstance.py lines 102-105: `OpenStackInstance._user_name` returns
`self._vmwarvendor["userName"]` — a plain dict index with no default, which
raises `KeyError` when the key is absent. -/
def OpenStackInstance.user_name (vmwarvendor : Json) : Except SDKErr Json :=
  vmwarvendor.pyGetItem "userName"

/-- mysqlinstance.py lines 356-370: the keyword-argument dict that
`restore_in_place` passes to `_restore_json` (optional string arguments are
`Json.str` or `Json.null`, matching the Python defaults). -/
def restore_in_place_kwargs (paths : List String)
    (staging dest_client_name dest_instance_name : Json)
    (data_restore log_restore overwrite : Bool)
    (copy_precedence from_time to_time media_agent : Json)
    (table_level_restore clone_env : Bool) (clone_options : Json) : Json :=
  .obj [
    ("paths", .arr (paths.map .str)),
    ("staging", staging),
    ("dest_client_name", dest_client_name),
    ("dest_instance_name", dest_instance_name),
    ("data_restore", .bool data_restore),
    ("log_restore", .bool log_restore),
    ("overwrite", .bool overwrite),
    ("copy_precedence", copy_precedence),
    ("from_time", from_time),
    ("to_time", to_time),
    ("media_agent", media_agent),
    ("table_level_restore", .bool table_level_restore),
    ("clone_env", .bool clone_env),
    ("clone_options", clone_options)]

/-- mysqlinstance.py lines 230-234 of `_restore_json`: replace a `None`
`from_time` / `to_time` with `{}` (a `KeyError` if the key is missing, as with
the Python subscript). -/
def restore_json_normalize (restore_option : Json) : Except SDKErr Json :=
  match restore_option.pyGetItem "from_time" with
  | .error e => .error e
  | .ok ft =>
    let j := match ft with
             | .null => restore_option.dictSet "from_time" (.obj [])
             | _ => restore_option
    match j.pyGetItem "to_time" with
    | .error e => .error e
    | .ok tt =>
      match tt with
      | .null => .ok (j.dictSet "to_time" (.obj []))
      | _ => .ok j

/-- mysqlinstance.py lines 437-467: `_restore_mysql_option_json`.  Raises
`SDKException('Instance','101')` unless `value` is a dict; builds
`self.mysql_restore_json`, then flips `dropTable` / `instanceRestore` when
`value.get("table_level_restore")` is truthy, and attaches `cloneOptions`
when `value.get("clone_env", False)` is truthy. -/
def restore_mysql_option_json (value : Json) : Except SDKErr Json :=
  match value with
  | .obj fields =>
    let base : Json := .obj [
      ("destinationFolder", .str ""),
      ("data", dictGet fields "data_restore" (.bool true)),
      ("log", dictGet fields "log_restore" (.bool true)),
      ("recurringRestore", .bool false),
      ("temporaryStagingLocation", dictGet fields "staging" (.str "")),
      ("dataStagingLocation", .str ""),
      ("logRestoreType", .num 0),
      ("tableLevelRestore", dictGet fields "table_level_restore" (.bool false)),
      ("pointofTime", .bool false),
      ("instanceRestore", .bool true),
      ("isCloneRestore", dictGet fields "clone_env" (.bool false)),
      ("fromTime", dictGet fields "from_time" (.obj [])),
      ("refTime", dictGet fields "to_time" (.obj [])),
      ("destinationServer", .obj [("name", .str "")])]
    let j := if (dictGet fields "table_level_restore" .null).pyTruthy then
               (base.dictSet "dropTable" (.bool true)).dictSet "instanceRestore" (.bool false)
             else base
    let j := if (dictGet fields "clone_env" (.bool false)).pyTruthy then
               j.dictSet "cloneOptions" (dictGet fields "clone_options" (.str ""))
             else j
    .ok j
  | _ => .error (.instanceErr 101)

/-- mysqlinstance.py lines 210-241: the `mySqlRstOption` subtree that
`_restore_json` places at
`taskInfo.subTasks[0].options.restoreOptions.mySqlRstOption` (line 238-239):
the `from_time`/`to_time` normalization followed by
`_restore_mysql_option_json` (kwargs hold no `restore_option` key on the
`restore_in_place` path, so `restore_option` is the kwargs dict itself). -/
def restore_json_mysql_option (kwargs : Json) : Except SDKErr Json :=
  match restore_json_normalize kwargs with
  | .error e => .error e
  | .ok v => restore_mysql_option_json v

/-- mysqlinstance.py lines 243-372: `restore_in_place` up to the request it
submits, restricted to the `mySqlRstOption` subtree of that request.  The
`isinstance` checks on `path`/`overwrite` are discharged by typing; `path`
must be non-empty (line 353-354, `SDKException('Instance','104')`). -/
def restore_in_place_mysql_option (paths : List String)
    (staging dest_client_name dest_instance_name : Json)
    (data_restore log_restore overwrite : Bool)
    (copy_precedence from_time to_time media_agent : Json)
    (table_level_restore clone_env : Bool) (clone_options : Json) :
    Except SDKErr Json :=
  if paths.isEmpty then
    .error (.instanceErr 104)
  else
    restore_json_mysql_option (restore_in_place_kwargs paths
      staging dest_client_name dest_instance_name
      data_restore log_restore overwrite
      copy_precedence from_time to_time media_agent
      table_level_restore clone_env clone_options)

/-! ## characterization helpers and concrete fixtures used by the theorems -/

/-- The selectors an explicit client list contributes
(install.py lines 108-113): its names, lowercased, in order. -/
def explicit_client_selectors : Option (List String) → List Selector
  | none => []
  | some cs => cs.map (fun c => Selector.clientName (pyLower c))

/-- The selectors an explicit client-group list contributes
(install.py lines 115-121). -/
def explicit_group_selectors : Option (List String) → List Selector
  | none => []
  | some gs => gs.map (fun g => Selector.clientGroupName (pyLower g))

/-- A fully populated `LiveSyncPair` state, from an earlier successful
refresh. -/
def pairStateBefore : PairState :=
  { properties := some (.obj [("replicationGuid", .str "OLDGUID"), ("status", .num 1),
      ("sourceName", .str "srcvm"), ("destinationName", .str "dstvm")])
    replication_guid := some (.str "OLDGUID")
    status := some (.num 1)
    source_vm := some (.str "srcvm")
    destination_vm := some (.str "dstvm") }

/-- A successful-transport response whose `siteInfo` entry carries a
`replicationGuid` but no `status` field. -/
def pairBodyMissingStatus : Json :=
  .obj [("siteInfo", .arr [.obj [("replicationGuid", .str "NEWGUID")]])]

/-- The torn state `_get_live_sync_properties` leaves behind on
`pairBodyMissingStatus`: `_properties` and `_replication_guid` updated,
the remaining attributes still the old ones. -/
def pairStateTorn : PairState :=
  { pairStateBefore with
    properties := some (.obj [("replicationGuid", .str "NEWGUID")])
    replication_guid := some (.str "NEWGUID") }

/-! ## theorems -/

/-- A `pyGetItem` success implies the body is a non-empty object, hence
truthy. -/
theorem pyGetItem_ok_pyTruthy {body v : Json} {k : String}
    (h : body.pyGetItem k = .ok v) : body.pyTruthy = true := by
  cases body <;> simp [Json.pyGetItem] at h
  case obj fields =>
    cases fields with
    | nil => simp [Json.pyGetItem, List.lookup] at h
    | cons f fs => simp [Json.pyTruthy]

/-- A `pyGetItem` success implies `lookup` finds the value. -/
theorem pyGetItem_ok_lookup {body v : Json} {k : String}
    (h : body.pyGetItem k = .ok v) : body.lookup k = some v := by
  cases body <;> simp [Json.pyGetItem] at h
  case obj fields =>
    cases hl : List.lookup k fields with
    | none => simp [Json.pyGetItem, hl] at h
    | some w =>
      simp [Json.pyGetItem, hl] at h
      simp [Json.lookup, hl, h]

/-- C2: a successful `CREATE_TASK` submission whose parsed body carries a
`jobIds` sequence returns a `Job` handle for the first element of the
sequence; the remaining ids are discarded (install.py lines 176-187 and
377-388 both run this response handling). -/
theorem c2_first_job_id_returned (body j : Json) (rest : List Json)
    (h : body.pyGetItem "jobIds" = .ok (.arr (j :: rest))) :
    process_task_response true body = .ok j := by
  have htr := pyGetItem_ok_pyTruthy h
  have hlk := pyGetItem_ok_lookup h
  simp [process_task_response, htr, Json.hasKey, hlk, h, Json.pyIndex]

/-- C2 witness: the body `jobIds = [42, 43]` yields the handle for `42`. -/
theorem c2_first_job_id_returned_witness :
    process_task_response true (Json.obj [("jobIds", Json.arr [Json.num 42, Json.num 43])])
      = .ok (Json.num 42) :=
  c2_first_job_id_returned _ (Json.num 42) [Json.num 43] rfl

/-- C3 counterexample: with a successful transport flag and an empty (falsy)
parsed body, `_get_live_sync_pairs` does not fail with
`SDKException('Response','102')` — it succeeds with the empty snapshot — and
`_get_live_sync_properties` silently skips the update (no error, state
unchanged). -/
theorem c3_empty_body_counterexample :
    get_live_sync_pairs true (Json.obj []) = .ok []
    ∧ get_live_sync_properties ⟨none, none, none, none, none⟩ true (Json.obj [])
        = (⟨none, none, none, none, none⟩, none) := by
  exact ⟨rfl, rfl⟩

/-- C3 amended: on a successful transport flag with a falsy body, the
`CREATE_TASK` operations (push_servicepack_and_hotfix, install_software) fail
with `SDKException('Response','102')`, but `_get_live_sync_pairs` returns the
empty snapshot and `_get_live_sync_properties` leaves the state unchanged
without raising. -/
theorem c3_empty_body_per_operation (body : Json) (st : PairState)
    (h : body.pyTruthy = false) :
    process_task_response true body = .error (SDKErr.response 102)
    ∧ get_live_sync_pairs true body = .ok []
    ∧ get_live_sync_properties st true body = (st, none) := by
  refine ⟨?_, ?_, ?_⟩ <;> simp [process_task_response, get_live_sync_pairs,
    get_live_sync_properties, h]

/-- C3 amended witness: instantiated at the empty-object body. -/
theorem c3_empty_body_per_operation_witness :
    process_task_response true (Json.obj []) = .error (SDKErr.response 102)
    ∧ get_live_sync_pairs true (Json.obj []) = .ok []
    ∧ get_live_sync_properties ⟨none, none, none, none, none⟩ true (Json.obj [])
        = (⟨none, none, none, none, none⟩, none) :=
  c3_empty_body_per_operation (Json.obj []) ⟨none, none, none, none, none⟩ rfl

/-- C4: on a snapshot with key `"foo"`, `has_live_sync_pair "Foo"` is true
(case-insensitive guard), but `VsaLiveSync.get "Foo"` indexes the snapshot
with the raw name (vsa_live_sync.py line 316) and raises `KeyError` instead
of returning the pair's handle. -/
theorem c4_get_raw_name_keyerror :
    has_live_sync_pair [("foo", "5")] "Foo" = true
    ∧ VsaLiveSync.get [("foo", "5")] "Foo" = .error (SDKErr.keyError "Foo")
    ∧ VsaLiveSync.get [("foo", "5")] "foo" = .ok ("foo", "5") := by
  exact ⟨rfl, rfl, rfl⟩

/-- C6: with no explicit clients, no explicit client groups and both "all"
flags false, `push_servicepack_and_hotfix` fails with
`SDKException('Install','101')` before any network call. -/
theorem c6_zero_selectors_invalid_input (env : CommcellEnv)
    (client_computers client_computer_groups : Option (List String))
    (reboot_client run_db_maintenance flag : Bool) (body : Json)
    (h1 : optTruthy client_computers = false)
    (h2 : optTruthy client_computer_groups = false) :
    push_servicepack_and_hotfix env client_computers client_computer_groups
        false false reboot_client run_db_maintenance flag body
      = .failedBeforeRequest (SDKErr.install 101) := by
  simp [push_servicepack_and_hotfix, push_selectors, h1, h2]

/-- C6 witness: the all-defaults call. -/
theorem c6_zero_selectors_invalid_input_witness :
    push_servicepack_and_hotfix ⟨["a"], ["g"]⟩ none none
        false false false true true (Json.obj [])
      = .failedBeforeRequest (SDKErr.install 101) :=
  c6_zero_selectors_invalid_input ⟨["a"], ["g"]⟩ none none false true true
    (Json.obj []) rfl rfl

/-- C5 counterexample: a failed `LiveSyncPair` refresh does not always leave
the previous snapshot intact.  On a response whose `siteInfo` entry lacks a
`status` field, `_get_live_sync_properties` raises `KeyError` *after* already
overwriting `_properties` and `_replication_guid`, leaving a torn snapshot. -/
theorem c5_torn_snapshot_counterexample :
    get_live_sync_properties pairStateBefore true pairBodyMissingStatus
      = (pairStateTorn, some (SDKErr.keyError "status"))
    ∧ pairStateTorn ≠ pairStateBefore := by
  refine ⟨rfl, ?_⟩
  intro h
  have hg := congrArg PairState.replication_guid h
  simp [pairStateTorn, pairStateBefore] at hg

/-- C5 amended: a failed `VsaLiveSync.refresh` always leaves the previous
snapshot intact (the fetch raises before the assignment), and a
`LiveSyncPair` refresh leaves its state intact when the failure comes at the
transport level, on a falsy body, or on a truthy body with no `siteInfo`
key; only a failure partway through the per-field extraction (the C5
counterexample) tears the snapshot. -/
theorem c5_refresh_failure_preserves_snapshot
    (old : List (String × String)) (flag : Bool) (bodyA bodyB bodyC : Json)
    (st : PairState)
    (hA : (VsaLiveSync.refresh old flag bodyA).2.isSome = true)
    (hB : bodyB.pyTruthy = false)
    (hC : bodyC.pyTruthy = true) (hC2 : bodyC.hasKey "siteInfo" = false) :
    (VsaLiveSync.refresh old flag bodyA).1 = old
    ∧ (get_live_sync_properties st false bodyA).1 = st
    ∧ get_live_sync_properties st true bodyB = (st, none)
    ∧ get_live_sync_properties st true bodyC = (st, some (SDKErr.response 102)) := by
  refine ⟨?_, ?_, ?_, ?_⟩
  · cases hres : get_live_sync_pairs flag bodyA with
    | ok d => simp [VsaLiveSync.refresh, hres] at hA
    | error e => simp [VsaLiveSync.refresh, hres]
  · simp [get_live_sync_properties]
  · simp [get_live_sync_properties, hB]
  · simp [get_live_sync_properties, hC, hC2]

/-- C5 amended witness: transport failure, falsy body and missing `siteInfo`
key, each at a concrete input. -/
theorem c5_refresh_failure_preserves_snapshot_witness :
    (VsaLiveSync.refresh [("a", "1")] false (Json.obj [])).1 = [("a", "1")]
    ∧ (get_live_sync_properties ⟨none, none, none, none, none⟩ false (Json.obj [])).1
        = ⟨none, none, none, none, none⟩
    ∧ get_live_sync_properties ⟨none, none, none, none, none⟩ true (Json.obj [])
        = (⟨none, none, none, none, none⟩, none)
    ∧ get_live_sync_properties ⟨none, none, none, none, none⟩ true
          (Json.obj [("other", Json.num 1)])
        = (⟨none, none, none, none, none⟩, some (SDKErr.response 102)) :=
  c5_refresh_failure_preserves_snapshot [("a", "1")] false (Json.obj []) (Json.obj [])
    (Json.obj [("other", Json.num 1)]) ⟨none, none, none, none, none⟩
    rfl rfl rfl rfl

/-- A `clientsStep` success yields exactly the explicit-client selectors. -/
theorem clientsStep_ok (env : CommcellEnv) (cc : Option (List String))
    (l : List Selector) (h : clientsStep env cc = .ok l) :
    l = explicit_client_selectors cc := by
  cases cc with
  | none =>
    simp [clientsStep] at h
    simp [explicit_client_selectors, ← h]
  | some cs =>
    simp only [clientsStep] at h
    split at h
    · simp only [Except.ok.injEq] at h
      simp [← h, explicit_client_selectors, List.map_map, Function.comp]
    · exact absurd h (by simp)

/-- A `groupsStep` success yields exactly the explicit-group selectors. -/
theorem groupsStep_ok (env : CommcellEnv) (ccg : Option (List String))
    (l : List Selector) (h : groupsStep env ccg = .ok l) :
    l = explicit_group_selectors ccg := by
  cases ccg with
  | none =>
    simp [groupsStep] at h
    simp [explicit_group_selectors, ← h]
  | some gs =>
    simp only [groupsStep] at h
    split at h
    · simp only [Except.ok.injEq] at h
      simp [← h, explicit_group_selectors, List.map_map, Function.comp]
    · exact absurd h (by simp)

/-- C1 counterexample: with the known client `"a"`, calling
`push_servicepack_and_hotfix` with the explicit list `["a"]` *and*
`all_client_computers=True` yields the selector sequence `[{"_type_": 2}]`
alone — the sentinel assignment on install.py line 124 overwrites the
explicit entries, so they do not precede the sentinel as the claim states. -/
theorem c1_sentinel_replaces_explicit_list :
    push_selectors ⟨["a"], []⟩ (some ["a"]) none true false
      = .ok [Selector.allType 2]
    ∧ Selector.clientName "a" ∉ [Selector.allType 2] := by
  exact ⟨rfl, by decide⟩

/-- C1 amended: the selector sequence is the client-category part followed by
the group-category part (the two categories are additive), but within each
category the "all" sentinel *replaces* the explicit-list entries rather than
being appended after them; without the sentinel the explicit entries appear
lowercased in order. -/
theorem c1_selector_sequence_characterization (env : CommcellEnv)
    (client_computers client_computer_groups : Option (List String))
    (all_client_computers all_client_computer_groups : Bool)
    (sels : List Selector)
    (h : push_selectors env client_computers client_computer_groups
        all_client_computers all_client_computer_groups = .ok sels) :
    sels = (if all_client_computers then [Selector.allType 2]
            else explicit_client_selectors client_computers)
        ++ (if all_client_computer_groups then [Selector.allType 27]
            else explicit_group_selectors client_computer_groups) := by
  simp only [push_selectors] at h
  split at h
  · exact absurd h (by simp)
  · cases hcs : clientsStep env client_computers with
    | error e => rw [hcs] at h; exact absurd h (by simp)
    | ok selected_clients =>
      rw [hcs] at h
      cases hgs : groupsStep env client_computer_groups with
      | error e => rw [hgs] at h; exact absurd h (by simp)
      | ok selected_groups =>
        rw [hgs] at h
        simp only [Except.ok.injEq] at h
        rw [← h, clientsStep_ok env _ _ hcs, groupsStep_ok env _ _ hgs]

/-- C1 amended witness: explicit list `["A"]` with the all-groups sentinel:
the lowercased explicit client entry, then the group sentinel. -/
theorem c1_selector_sequence_characterization_witness :
    push_selectors ⟨["a"], []⟩ (some ["A"]) none false true
      = .ok [Selector.clientName "a", Selector.allType 27]
    ∧ [Selector.clientName "a", Selector.allType 27]
      = (if (false : Bool) then [Selector.allType 2]
         else explicit_client_selectors (some ["A"]))
        ++ (if (true : Bool) then [Selector.allType 27]
            else explicit_group_selectors none) :=
  ⟨rfl, c1_selector_sequence_characterization ⟨["a"], []⟩ (some ["A"]) none
    false true _ rfl⟩

/-- An explicit client list containing a name whose lowercase form is not a
known client fails the subset check with `SDKException('Install','102')`. -/
theorem clientsStep_bad (env : CommcellEnv) (cs : List String) (c : String)
    (hc : c ∈ cs) (hbad : env.all_clients.contains (pyLower c) = false) :
    clientsStep env (some cs) = .error (.install 102) := by
  simp only [clientsStep]
  rw [if_neg]
  intro hall
  rw [List.all_eq_true] at hall
  have := hall (pyLower c) (List.mem_map_of_mem pyLower hc)
  rw [hbad] at this
  exact Bool.false_ne_true this

/-- Same for the explicit client-group list, with
`SDKException('Install','103')`. -/
theorem groupsStep_bad (env : CommcellEnv) (gs : List String) (g : String)
    (hg : g ∈ gs) (hbad : env.all_clientgroups.contains (pyLower g) = false) :
    groupsStep env (some gs) = .error (.install 103) := by
  simp only [groupsStep]
  rw [if_neg]
  intro hall
  rw [List.all_eq_true] at hall
  have := hall (pyLower g) (List.mem_map_of_mem pyLower hg)
  rw [hbad] at this
  exact Bool.false_ne_true this

/-- `clientsStep` can only fail with code 102. -/
theorem clientsStep_error_code (env : CommcellEnv) (cc : Option (List String))
    (e : SDKErr) (h : clientsStep env cc = .error e) : e = .install 102 := by
  cases cc with
  | none => simp [clientsStep] at h
  | some cs =>
    simp only [clientsStep] at h
    split at h
    · exact absurd h (by simp)
    · simp only [Except.error.injEq] at h
      exact h.symm

/-- C7: when some supplied client name (case-folded) is not among the
session's known clients, or some supplied group name is not among the known
client groups, `push_servicepack_and_hotfix` fails with
`SDKException('Install','102')` or `SDKException('Install','103')` — the
`UnknownResource` errors — before the request body is built and before any
network call. -/
theorem c7_unknown_name_fails_before_request (env : CommcellEnv)
    (client_computers client_computer_groups : Option (List String))
    (all_client_computers all_client_computer_groups : Bool)
    (reboot_client run_db_maintenance flag : Bool) (body : Json)
    (h : (∃ c ∈ client_computers.getD [],
            env.all_clients.contains (pyLower c) = false)
       ∨ (∃ g ∈ client_computer_groups.getD [],
            env.all_clientgroups.contains (pyLower g) = false)) :
    push_servicepack_and_hotfix env client_computers client_computer_groups
        all_client_computers all_client_computer_groups
        reboot_client run_db_maintenance flag body
      = .failedBeforeRequest (SDKErr.install 102)
    ∨ push_servicepack_and_hotfix env client_computers client_computer_groups
        all_client_computers all_client_computer_groups
        reboot_client run_db_maintenance flag body
      = .failedBeforeRequest (SDKErr.install 103) := by
  rcases h with ⟨c, hc, hbad⟩ | ⟨g, hg, hbad⟩
  · cases client_computers with
    | none => simp at hc
    | some cs =>
      have htr : optTruthy (some cs) = true := by
        cases cs with
        | nil => simp at hc
        | cons a as => simp [optTruthy]
      left
      simp only [push_servicepack_and_hotfix, push_selectors, htr,
        Bool.or_true, Bool.true_or, clientsStep_bad env cs c hc hbad]
      simp
  · cases client_computer_groups with
    | none => simp at hg
    | some gs =>
      have htr : optTruthy (some gs) = true := by
        cases gs with
        | nil => simp at hg
        | cons a as => simp [optTruthy]
      cases hcs : clientsStep env client_computers with
      | error e =>
        left
        rw [clientsStep_error_code env _ _ hcs] at hcs
        simp only [push_servicepack_and_hotfix, push_selectors, htr,
          Bool.or_true, Bool.true_or, hcs]
        simp
      | ok selected =>
        right
        simp only [push_servicepack_and_hotfix, push_selectors, htr,
          Bool.or_true, Bool.true_or, hcs, groupsStep_bad env gs g hg hbad]
        simp

/-- C7 witness: the unknown client `"evil"` against a session knowing only
`"a"`. -/
theorem c7_unknown_name_fails_before_request_witness :
    push_servicepack_and_hotfix ⟨["a"], []⟩ (some ["evil"]) none
        false false false true true (Json.obj [])
      = .failedBeforeRequest (SDKErr.install 102)
    ∨ push_servicepack_and_hotfix ⟨["a"], []⟩ (some ["evil"]) none
        false false false true true (Json.obj [])
      = .failedBeforeRequest (SDKErr.install 103) :=
  c7_unknown_name_fails_before_request ⟨["a"], []⟩ (some ["evil"]) none
    false false false true true (Json.obj [])
    (Or.inl ⟨"evil", by decide, by decide⟩)

/-- C8: for every `restore_in_place` call with `table_level_restore=True`
(and a non-empty path list, without which no request is built), the
`mySqlRstOption` subtree of the submitted Task Request has `dropTable = true`
and `instanceRestore = false`, whatever every other argument is
(mysqlinstance.py lines 461-463). -/
theorem c8_table_level_restore_flags (p : String) (ps : List String)
    (staging dest_client_name dest_instance_name : Json)
    (data_restore log_restore overwrite : Bool)
    (copy_precedence from_time to_time media_agent : Json)
    (clone_env : Bool) (clone_options : Json) :
    (restore_in_place_mysql_option (p :: ps)
        staging dest_client_name dest_instance_name
        data_restore log_restore overwrite
        copy_precedence from_time to_time media_agent
        true clone_env clone_options).map
      (fun m => (m.lookup "dropTable", m.lookup "instanceRestore"))
    = .ok (some (Json.bool true), some (Json.bool false)) := by
  cases from_time <;> cases to_time <;> cases clone_env <;> rfl

/-- C9 counterexample: not every property accessor returns a default on an
absent path segment.  `OpenStackInstance._user_name` indexes the vendor dict
with no default and raises `KeyError` when `userName` is absent. -/
theorem c9_accessor_raises_counterexample :
    OpenStackInstance.user_name (Json.obj [])
      = .error (SDKErr.keyError "userName") := rfl

/-- C9 amended: the `MYSQLInstance` property accessors are total pure
functions of the snapshot that return their documented defaults when the
`mySqlInstance` subtree is absent, and likewise when an inner segment
(`SAUser`, `port`) is absent from a present subtree; but
`OpenStackInstance._user_name` raises `KeyError` on an absent key rather
than returning a default. -/
theorem c9_mysql_accessors_default_on_absence
    (props inst : List (String × Json))
    (h : List.lookup "mySqlInstance" props = none)
    (h2 : List.lookup "SAUser" inst = none)
    (h3 : List.lookup "port" inst = none) :
    MYSQLInstance.port props = .ok Json.null
    ∧ MYSQLInstance.mysql_username props = .ok Json.null
    ∧ MYSQLInstance.nt_username props = .ok Json.null
    ∧ MYSQLInstance.config_file props = .ok Json.null
    ∧ MYSQLInstance.binary_directory props = .ok Json.null
    ∧ MYSQLInstance.version props = .ok Json.null
    ∧ MYSQLInstance.log_data_directory props = .ok Json.null
    ∧ MYSQLInstance.autodiscovery_enabled props = .ok (Json.bool false)
    ∧ MYSQLInstance.log_backup_sp_details props
        = .ok (.obj [("storagePolicyName", Json.null), ("storagePolicyId", Json.null)])
    ∧ MYSQLInstance.command_line_sp_details props
        = .ok (.obj [("storagePolicyName", Json.null), ("storagePolicyId", Json.null)])
    ∧ MYSQLInstance.proxy_options props
        = .ok (.obj [("isUseSSL", Json.null), ("isProxyEnabled", Json.null),
            ("runBackupOnProxy", Json.null), ("instanceId", Json.null)])
    ∧ MYSQLInstance.port [("mySqlInstance", Json.obj inst)] = .ok Json.null
    ∧ MYSQLInstance.mysql_username [("mySqlInstance", Json.obj inst)] = .ok Json.null := by
  refine ⟨?_, ?_, ?_, ?_, ?_, ?_, ?_, ?_, ?_, ?_, ?_, ?_, ?_⟩ <;>
    simp [MYSQLInstance.port, MYSQLInstance.mysql_username, MYSQLInstance.nt_username,
      MYSQLInstance.config_file, MYSQLInstance.binary_directory, MYSQLInstance.version,
      MYSQLInstance.log_data_directory, MYSQLInstance.autodiscovery_enabled,
      MYSQLInstance.log_backup_sp_details, MYSQLInstance.command_line_sp_details,
      MYSQLInstance.proxy_options, MYSQLInstance.mySqlInstanceDict,
      dictGet, Json.pyGet, h, h2, h3]

/-- C9 amended witness: the empty snapshot and the empty `mySqlInstance`
subtree. -/
theorem c9_mysql_accessors_default_on_absence_witness :
    MYSQLInstance.port [] = .ok Json.null
    ∧ MYSQLInstance.mysql_username [] = .ok Json.null
    ∧ MYSQLInstance.nt_username [] = .ok Json.null
    ∧ MYSQLInstance.config_file [] = .ok Json.null
    ∧ MYSQLInstance.binary_directory [] = .ok Json.null
    ∧ MYSQLInstance.version [] = .ok Json.null
    ∧ MYSQLInstance.log_data_directory [] = .ok Json.null
    ∧ MYSQLInstance.autodiscovery_enabled [] = .ok (Json.bool false)
    ∧ MYSQLInstance.log_backup_sp_details []
        = .ok (.obj [("storagePolicyName", Json.null), ("storagePolicyId", Json.null)])
    ∧ MYSQLInstance.command_line_sp_details []
        = .ok (.obj [("storagePolicyName", Json.null), ("storagePolicyId", Json.null)])
    ∧ MYSQLInstance.proxy_options []
        = .ok (.obj [("isUseSSL", Json.null), ("isProxyEnabled", Json.null),
            ("runBackupOnProxy", Json.null), ("instanceId", Json.null)])
    ∧ MYSQLInstance.port [("mySqlInstance", Json.obj [])] = .ok Json.null
    ∧ MYSQLInstance.mysql_username [("mySqlInstance", Json.obj [])] = .ok Json.null :=
  c9_mysql_accessors_default_on_absence [] [] rfl rfl rfl

/-- C10 counterexample: with `unix_features` non-empty and `windows_features`
an *empty list*, `install_software` does not fail before the network
request: the component list built from `windows_features` (install.py line
261) is empty, and a request with an empty `componentInfo` is sent. -/
theorem c10_empty_windows_features_sends_request :
    install_software "cs" (some ["c1"]) (some []) (some [5]) none none
        true (Json.obj [])
      = .sent ⟨1, [], [("c1", "cs")], none, none⟩
          (.error (SDKErr.response 102)) := rfl

/-- C10 amended: the `elif unix_features:` branch of `install_software`
iterates `windows_features`; when `windows_features` is `None` the call
fails with `TypeError` before any network request, but when it is an empty
list a request is sent whose `componentInfo` is empty — in neither case does
any request carry the supplied unix feature ids. -/
theorem c10_unix_branch_iterates_windows_features (commserv_name : String)
    (client_computers : Option (List String)) (unix_features : Option (List Nat))
    (username password : Option String) (flag : Bool) (body : Json)
    (huf : optTruthy unix_features = true)
    (hcc : optTruthy client_computers = true) :
    install_software commserv_name client_computers none unix_features
        username password flag body
      = .failedBeforeRequest SDKErr.typeError
    ∧ install_software commserv_name client_computers (some []) unix_features
        username password flag body
      = .sent ⟨1, [], (client_computers.getD []).map (fun c => (c, commserv_name)),
            username, password⟩
          (process_task_response flag body) := by
  have h1 : optTruthy (none : Option (List Nat)) = false := rfl
  have h2 : optTruthy (some ([] : List Nat)) = false := rfl
  constructor <;> simp [install_software, h1, h2, huf, hcc]

/-- C10 amended witness: one unix feature, one client. -/
theorem c10_unix_branch_iterates_windows_features_witness :
    install_software "cs" (some ["c1"]) none (some [5]) none none true (Json.obj [])
      = .failedBeforeRequest SDKErr.typeError
    ∧ install_software "cs" (some ["c1"]) (some []) (some [5]) none none
        true (Json.obj [])
      = .sent ⟨1, [], [("c1", "cs")], none, none⟩
          (process_task_response true (Json.obj [])) :=
  c10_unix_branch_iterates_windows_features "cs" (some ["c1"]) (some [5])
    none none true (Json.obj []) rfl rfl
